import Mathlib

/-!
Shallow embedding of pymedphys_deliverydata/dicom/to_dicom.py.

Real-valued machine quantities (monitor units, angles, positions) are
embedded as rationals; numpy float arrays become Lean lists.  Numeric
string rendering performed by the source (astype(str), '{0:.6f}'.format)
is elided: the embedded functions carry the numeric values that those
strings denote.  Fallible numpy operations (np.min over an empty array,
reductions over empty arrays, failed boolean-mask lookups) are embedded
with Option / Except.

Helper functions imported by to_dicom.py from pymedphys_dicom.rtplan and
from pymedphys_deliverydata.utilities are not part of the sources; each
such helper is modelled from the specification and carries a doc comment
starting with: Modelled from the spec.
-/

/-- Delivery telemetry stream (DeliveryDataBase from pymedphys_base):
five index-aligned sequences.  An MLC sample is the per-leaf list of
(bank A, bank B) positions, i.e. the per-sample leaf-by-bank matrix;
a jaw sample is the pair of the two jaw coordinates. -/
structure DeliveryDataBase where
  monitor_units : List ℚ
  gantry : List ℚ
  collimator : List ℚ
  mlc : List (List (ℚ × ℚ))
  jaw : List (ℚ × ℚ)
deriving DecidableEq

/-- DeliveryDataBase.empty(): all five sequences empty. -/
def DeliveryDataBase.empty : DeliveryDataBase :=
  ⟨[], [], [], [], []⟩

/-- Rotation direction tag written into the plan document by angle_dd2dcm. -/
inductive Movement
  | CW
  | CC
  | NONE
deriving DecidableEq

/-- Forward differences of adjacent elements, np.diff: for input
[a0, a1, ..., an] the list [a1 - a0, ..., an - a(n-1)]. -/
def diffList : List ℚ → List ℚ
  | a :: b :: rest => (b - a) :: diffList (b :: rest)
  | _ => []

/-- np.min over a 1-D array: none on an empty array (numpy raises a
ValueError there), otherwise the least element. -/
def npMin : List ℚ → Option ℚ
  | [] => none
  | x :: xs => some (xs.foldl min x)

/-- np.max over a 1-D array: none on an empty array (numpy raises a
ValueError there), otherwise the greatest element. -/
def npMax : List ℚ → Option ℚ
  | [] => none
  | x :: xs => some (xs.foldl max x)

/-- Insert a value into an already ascending list, keeping it ascending. -/
def insertSorted (x : ℚ) : List ℚ → List ℚ
  | [] => [x]
  | y :: ys => if x ≤ y then x :: y :: ys else y :: insertSorted x ys

/-- Python sorted(...): ascending insertion sort. -/
def sortAngles : List ℚ → List ℚ
  | [] => []
  | x :: xs => insertSorted x (sortAngles xs)

/-- gantry_tol_from_gantry_angles (to_dicom.py lines 248-252):
min_diff = np.min(np.diff(sorted(gantry_angles))); the tolerance is
np.min([min_diff / 2 - 0.1, 3]).  np.min over the empty difference
array (fewer than two angles) raises, embedded as none. -/
def gantry_tol_from_gantry_angles (gantry_angles : List ℚ) : Option ℚ :=
  match npMin (diffList (sortAngles gantry_angles)) with
  | none => none
  | some min_diff => some (min (min_diff / 2 - 1/10) 3)

/-- jaw_dd2dcm (to_dicom.py lines 207-216) at the level of the numeric
values its output strings denote: the second jaw coordinate is negated
(jaw[:, 1] = -jaw[:, 1]) and then the two coordinates swap positions,
so each sample (a, b) becomes (-b, a).  The input array is copied
(np.array(jaw, copy=True)), so the caller's data is untouched. -/
def jaw_dd2dcm (jaw : List (ℚ × ℚ)) : List (ℚ × ℚ) :=
  jaw.map (fun p => (-p.2, p.1))

/-- mlc_dd2dcm (to_dicom.py lines 219-228) at the level of the numeric
values its output strings denote: each control point (an L×2 leaf-by-bank
matrix) becomes np.hstack([-control_point[-1::-1, 1],
control_point[-1::-1, 0]]): bank B reversed and negated, followed by
bank A reversed. -/
def mlc_dd2dcm (mlc : List (List (ℚ × ℚ))) : List (List ℚ) :=
  mlc.map (fun control_point =>
    control_point.reverse.map (fun p => -p.2) ++
      control_point.reverse.map (fun p => p.1))

/-- Sign-of-difference to rotation tag (to_dicom.py lines 235-237):
movement[diff > 0] = CW, movement[diff < 0] = CC, movement[diff == 0] = NONE. -/
def movement_of_diff (d : ℚ) : Movement :=
  if 0 < d then Movement.CW else if d < 0 then Movement.CC else Movement.NONE

/-- Negative-angle normalization (to_dicom.py lines 240-241):
converted_angle[converted_angle < 0] += 360. -/
def normalize_angle (x : ℚ) : ℚ :=
  if x < 0 then x + 360 else x

/-- Direction tags of angle_dd2dcm: diff = np.append(np.diff(angle), 0)
mapped through the sign rule.  Computed from the raw input differences,
before any angle is normalized. -/
def directionTags (angle : List ℚ) : List Movement :=
  (diffList angle ++ [0]).map movement_of_diff

/-- angle_dd2dcm (to_dicom.py lines 231-245) at the level of the numeric
values its output strings denote: returns the normalized angles together
with the direction tags.  On an empty input the boolean-mask assignment
into the zero-length movement array raises (the appended diff array has
length one), embedded as none. -/
def angle_dd2dcm (angle : List ℚ) : Option (List ℚ × List Movement) :=
  match angle with
  | [] => none
  | _ => some (angle.map normalize_angle, directionTags angle)

/-- Caller-visible content of the angle buffer after angle_dd2dcm
returns.  converted_angle = np.array(angle, copy=False) aliases the
caller's buffer whenever the input is already a float ndarray, and the
masked in-place assignment converted_angle[converted_angle < 0] += 360
then writes the normalized values through that alias; for a non-aliasing
input (a list or tuple, where np.array must allocate) the buffer is
untouched. -/
def angle_dd2dcm_caller_buffer (angle : List ℚ) (aliased : Bool) : List ℚ :=
  if aliased then angle.map normalize_angle else angle

/-- Modelled from the spec: a fraction group of the template plan, with
its unique FractionGroupNumber, its per-beam target metersets, and the
gantry angles of the beams it references (one angle per beam, the value
get_gantry_angles_from_dicom extracts for that beam). -/
structure FractionGroup where
  number : ℤ
  beam_metersets : List ℚ
  beam_gantry_angles : List ℚ
deriving DecidableEq

/-- Modelled from the spec: the template plan document, reduced to its
FractionGroupSequence. -/
structure DicomTemplate where
  fraction_groups : List FractionGroup
deriving DecidableEq

/-- Modelled from the spec: restriction of the template to the single
selected fraction group (convert_to_one_fraction_group from
pymedphys_dicom.rtplan).  Selection is by FractionGroupNumber; looking
up an absent number, in particular the unresolved fraction_group_number
None, raises, embedded as none. -/
def convert_to_one_fraction_group (t : DicomTemplate) (fgn : Option ℤ) :
    Option FractionGroup :=
  match fgn with
  | none => none
  | some n => t.fraction_groups.find? (fun fg => fg.number = n)

/-- Modelled from the spec: per-beam template gantry angles of a
single-fraction-group template (get_gantry_angles_from_dicom from
pymedphys_dicom.rtplan). -/
def get_gantry_angles_from_dicom (fg : FractionGroup) : List ℚ :=
  fg.beam_gantry_angles

/-- Modelled from the spec: the per-beam target metersets that
get_fraction_group_beam_sequence_and_meterset reads off the template for
one fraction group. -/
def get_fraction_group_beam_sequence_and_meterset (fg : FractionGroup) :
    List ℚ :=
  fg.beam_metersets

/-- np.abs on one entry. -/
def ratAbs (x : ℚ) : ℚ :=
  if x < 0 then -x else x

/-- One channel of the stream restricted, index-aligned with the gantry
channel, to the samples whose gantry angle lies within tol of the
target angle. -/
def maskChannel {α : Type} (gantry : List ℚ) (channel : List α)
    (target tol : ℚ) : List α :=
  ((gantry.zip channel).filter
    (fun p => if ratAbs (p.1 - target) ≤ tol then true else false)).map
    (fun p => p.2)

/-- Modelled from the spec (4.2 maskForBeam): the delivery stream
restricted, index-aligned across all five sequences, to the samples
whose gantry angle lies within tol of the target angle. -/
def maskByAngle (dd : DeliveryDataBase) (target tol : ℚ) : DeliveryDataBase :=
  ⟨maskChannel dd.gantry dd.monitor_units target tol,
    maskChannel dd.gantry dd.gantry target tol,
    maskChannel dd.gantry dd.collimator target tol,
    maskChannel dd.gantry dd.mlc target tol,
    maskChannel dd.gantry dd.jaw target tol⟩

/-- Modelled from the spec (4.2, utilities.get_all_masked_delivery_data):
masks the stream once per template gantry angle and fails with a
no-matching-samples condition (an AssertionError in the utilities) when
any beam's masked subset is empty. -/
def get_all_masked_delivery_data (dd : DeliveryDataBase)
    (gantry_angles : List ℚ) (gantry_tol : ℚ) :
    Except Unit (List DeliveryDataBase) :=
  let masked := gantry_angles.map (fun a => maskByAngle dd a gantry_tol)
  if masked.any (fun m => m.monitor_units.isEmpty) then Except.error ()
  else Except.ok masked

/-- Modelled from the spec (4.3, utilities.get_metersets_from_delivery_data):
the per-beam delivered meterset is the final cumulative monitor-unit
value within each beam's masked subset; a beam with an empty subset
contributes no meterset. -/
def get_metersets_from_delivery_data (masked : List DeliveryDataBase) :
    List ℚ :=
  masked.filterMap (fun m => m.monitor_units.getLast?)

/-- Typed failures of determine_fraction_group_number: the two ValueErrors
it raises itself, and the uncaught numpy failure of a reduction over an
empty or mismatched array (np.min of an empty difference array when a
candidate has fewer than two beam angles, np.max of an empty deviation
array). -/
inductive FGError
  | noFractionGroupWithinTol
  | ambiguousFractionGroup
  | emptySequence
deriving DecidableEq

/-- Return shape of determine_fraction_group_number: the single-group
path returns a scalar FractionGroupNumber, the multi-group path returns
the boolean-mask-filtered numpy array of the matching numbers. -/
inductive FGResult
  | scalar (n : ℤ)
  | array (ns : List ℤ)
deriving DecidableEq

/-- Per-candidate gantry tolerance (to_dicom.py lines 109-114): the
caller's gantry_tol when given, otherwise derived from the candidate's
own template angles.  A failed derivation (np.min over an empty
difference array) is a ValueError raised outside the try/except and is
not caught. -/
def resolve_gantry_tol (gantry_tol : Option ℚ) (fg : FractionGroup) :
    Option ℚ :=
  match gantry_tol with
  | some tol => some tol
  | none => gantry_tol_from_gantry_angles (get_gantry_angles_from_dicom fg)

/-- Per-candidate delivered metersets (to_dicom.py lines 109-132): mask
the full delivery stream with the candidate's angles and tolerance; on
an AssertionError from the masking the candidate's masked-data-derived
metersets are treated as entirely absent (the except branch, embedded as
ok none) rather than aborting; a failed tolerance derivation propagates. -/
def candidate_delivered (dd : DeliveryDataBase) (gantry_tol : Option ℚ)
    (fg : FractionGroup) : Except FGError (Option (List ℚ)) :=
  match resolve_gantry_tol gantry_tol fg with
  | none => Except.error FGError.emptySequence
  | some tol =>
    match get_all_masked_delivery_data dd (get_gantry_angles_from_dicom fg)
        tol with
    | Except.error _ => Except.ok none
    | Except.ok masked =>
      Except.ok (some (get_metersets_from_delivery_data masked))

/-- Per-candidate acceptance test (to_dicom.py lines 134-144): the
maximum absolute deviation np.max(np.abs(dicom - delivered)) compared
against the meterset tolerance.  A reduction over an empty or
shape-mismatched pair of arrays raises, embedded as an error.
Modelled from the spec for the absent case: a candidate whose masking
failed has its delivered metersets entirely absent and is evaluated as
a non-match. -/
def within_tol (dicom_metersets : List ℚ) (delivered : Option (List ℚ))
    (meterset_tol : ℚ) : Except FGError Bool :=
  match delivered with
  | none => Except.ok false
  | some ms =>
    if dicom_metersets.length = ms.length then
      match npMax ((dicom_metersets.zip ms).map (fun p => ratAbs (p.1 - p.2))) with
      | none => Except.error FGError.emptySequence
      | some dev => Except.ok (if dev ≤ meterset_tol then true else false)
    else Except.error FGError.emptySequence

/-- A Python list comprehension whose body may raise: the first raised
exception propagates, otherwise the list of results is produced. -/
def mapExcept {ε α β : Type} (f : α → Except ε β) : List α → Except ε (List β)
  | [] => Except.ok []
  | a :: as =>
    match f a with
    | Except.error e => Except.error e
    | Except.ok b =>
      match mapExcept f as with
      | Except.error e => Except.error e
      | Except.ok bs => Except.ok (b :: bs)

/-- Acceptance aggregation (to_dicom.py lines 144-161): zero accepted
candidates raise the no-match ValueError, more than one the ambiguity
ValueError, and otherwise the boolean-mask-filtered array of the
accepted FractionGroupNumbers is returned. -/
def aggregate (numbers : List ℤ) (flags : List Bool) :
    Except FGError FGResult :=
  let accepted := flags.count true
  if accepted < 1 then Except.error FGError.noFractionGroupWithinTol
  else if 1 < accepted then Except.error FGError.ambiguousFractionGroup
  else
    Except.ok (FGResult.array
      ((numbers.zip flags).filterMap
        (fun p => if p.2 then some p.1 else none)))

/-- Multi-group resolution body of determine_fraction_group_number
(to_dicom.py lines 89-161): the per-candidate delivered metersets are
computed for every candidate, then every candidate's deviation flag,
then the flags are aggregated. -/
def resolve_multi (dd : DeliveryDataBase) (fgs : List FractionGroup)
    (gantry_tol : Option ℚ) (meterset_tol : ℚ) : Except FGError FGResult :=
  match mapExcept (candidate_delivered dd gantry_tol) fgs with
  | Except.error e => Except.error e
  | Except.ok delivereds =>
    match mapExcept (fun p => within_tol p.1 p.2 meterset_tol)
        ((fgs.map (fun fg => get_fraction_group_beam_sequence_and_meterset fg)).zip
          delivereds) with
    | Except.error e => Except.error e
    | Except.ok flags => aggregate (fgs.map (fun fg => fg.number)) flags

/-- Fused per-candidate evaluation: delivered metersets then acceptance
flag for one candidate. -/
def candidate_flag (dd : DeliveryDataBase) (gantry_tol : Option ℚ)
    (meterset_tol : ℚ) (fg : FractionGroup) : Except FGError Bool :=
  match candidate_delivered dd gantry_tol fg with
  | Except.error e => Except.error e
  | Except.ok d =>
    within_tol (get_fraction_group_beam_sequence_and_meterset fg) d
      meterset_tol

/-- determine_fraction_group_number (to_dicom.py lines 82-161): a
single-fraction-group template returns that group's number
unconditionally as a scalar; otherwise the multi-group resolution runs. -/
def determine_fraction_group_number (dd : DeliveryDataBase)
    (t : DicomTemplate) (gantry_tol : Option ℚ) (meterset_tol : ℚ) :
    Except FGError FGResult :=
  match t.fraction_groups with
  | [fg] => Except.ok (FGResult.scalar fg.number)
  | _ => resolve_multi dd t.fraction_groups gantry_tol meterset_tol

/-- Modelled from the spec (1, non-goals): delivery streams are assumed
pre-cleaned by an upstream collaborator, so the relevance filter
filter_out_irrelevant_control_points from the utilities acts as the
identity on the streams this development considers. -/
def filter_out_irrelevant_control_points (dd : DeliveryDataBase) :
    DeliveryDataBase :=
  dd

/-- Converted trajectory produced by coordinate_convert_delivery_data
(to_dicom.py lines 188-204), the dictionary it returns. -/
structure ConvertedDeliveryData where
  monitor_units : List ℚ
  mlc : List (List ℚ)
  jaw : List (ℚ × ℚ)
  gantry_angle : List ℚ
  gantry_movement : List Movement
  collimator_angle : List ℚ
  collimator_movement : List Movement
deriving DecidableEq

/-- coordinate_convert_delivery_data (to_dicom.py lines 188-204):
converts every channel of one masked beam's delivery data with the
coordinate converters.  Fails when an angle channel is empty. -/
def coordinate_convert_delivery_data (dd : DeliveryDataBase) :
    Option ConvertedDeliveryData :=
  match angle_dd2dcm dd.gantry, angle_dd2dcm dd.collimator with
  | some (ga, gm), some (ca, cm) =>
    some ⟨dd.monitor_units, mlc_dd2dcm dd.mlc, jaw_dd2dcm dd.jaw,
      ga, gm, ca, cm⟩
  | _, _ => none

/-- Typed failures of the delivery_data_to_dicom pipeline. -/
inductive PipelineError
  | unresolvedFractionGroup
  | emptySequence
  | maskingFailure
  | conversionFailure
deriving DecidableEq

/-- Modelled from the spec (4.4, 4.5): the merged output plan, reduced to
the selected fraction group's number together with each beam's converted
control-point trajectory, assembled per beam and merged in original beam
order. -/
structure OutputPlan where
  fraction_group_number : ℤ
  beams : List ConvertedDeliveryData
deriving DecidableEq

/-- Conversion of each beam's masked data into its control-point
trajectory (the per-beam loop of to_dicom.py lines 73-77, with the
ControlPointBuilder and BeamSequenceMerger stages modelled from the
spec as the per-beam assembly of the converted data). -/
def build_beams (masked : List DeliveryDataBase) :
    Option (List ConvertedDeliveryData) :=
  match masked with
  | [] => some []
  | m :: rest =>
    match coordinate_convert_delivery_data m, build_beams rest with
    | some c, some cs => some (c :: cs)
    | _, _ => none

/-- delivery_data_to_dicom (to_dicom.py lines 52-79).  Lines 55-56 read
if fraction_group_number is None: pass, so the None case performs no
resolution and the unresolved None flows into
convert_to_one_fraction_group, whose lookup fails.  Otherwise the
template is restricted to the selected group, the gantry tolerance is
derived from that group's template angles, the delivery stream is masked
per beam, and each beam's masked data is converted and merged. -/
def delivery_data_to_dicom (dd : DeliveryDataBase) (t : DicomTemplate)
    (fraction_group_number : Option ℤ) : Except PipelineError OutputPlan :=
  match convert_to_one_fraction_group t fraction_group_number with
  | none => Except.error PipelineError.unresolvedFractionGroup
  | some fg =>
    let dd2 := filter_out_irrelevant_control_points dd
    let template_gantry_angles := get_gantry_angles_from_dicom fg
    match gantry_tol_from_gantry_angles template_gantry_angles with
    | none => Except.error PipelineError.emptySequence
    | some gantry_tol =>
      match get_all_masked_delivery_data dd2 template_gantry_angles
          gantry_tol with
      | Except.error _ => Except.error PipelineError.maskingFailure
      | Except.ok masked =>
        match build_beams masked with
        | none => Except.error PipelineError.conversionFailure
        | some beams => Except.ok ⟨fg.number, beams⟩

/-- Concrete delivery stream: four samples, two at gantry 0 reaching
meterset 100 and two at gantry 90 reaching meterset 200. -/
def exDelivery : DeliveryDataBase :=
  ⟨[50, 100, 150, 200], [0, 0, 90, 90], [0, 0, 0, 0],
    [[(1, 2)], [(1, 2)], [(1, 2)], [(1, 2)]],
    [(1, 2), (1, 2), (1, 2), (1, 2)]⟩

/-- Concrete second fraction group: its beams sit at gantry 110 and
-110, far from every delivered sample, so its masking fails. -/
def exGroupTwo : FractionGroup :=
  ⟨2, [150, 250], [110, -110]⟩

/-- Concrete two-fraction-group template.  Group 1 matches exDelivery
exactly (per-beam metersets 100 and 200 at gantry 0 and 90); group 2
does not. -/
def exTemplate : DicomTemplate :=
  ⟨[⟨1, [100, 200], [0, 90]⟩, exGroupTwo]⟩

theorem insertSorted_length (x : ℚ) :
    ∀ l : List ℚ, (insertSorted x l).length = l.length + 1
  | [] => rfl
  | y :: ys => by
    simp only [insertSorted]
    split
    · simp
    · simp [insertSorted_length x ys]

theorem sortAngles_length : ∀ l : List ℚ, (sortAngles l).length = l.length
  | [] => rfl
  | x :: xs => by
    simp [sortAngles, insertSorted_length, sortAngles_length xs]

theorem diffList_length : ∀ l : List ℚ, (diffList l).length = l.length - 1
  | [] => rfl
  | [_] => rfl
  | a :: b :: rest => by
    have h := diffList_length (b :: rest)
    simp only [diffList, List.length_cons] at h ⊢
    omega

theorem npMin_eq_none_iff (l : List ℚ) : npMin l = none ↔ l = [] := by
  cases l <;> simp [npMin]

/-- Claim C10: gantry_tol_from_gantry_angles fails (np.min over the
empty array of adjacent differences raises) exactly when the template
angle list has fewer than two angles, so a tolerance value is produced
precisely under the precondition that the list has length at least two. -/
theorem gantry_tol_requires_two_angles (l : List ℚ) :
    gantry_tol_from_gantry_angles l = none ↔ l.length < 2 := by
  unfold gantry_tol_from_gantry_angles
  rcases h : npMin (diffList (sortAngles l)) with _ | d
  · rw [npMin_eq_none_iff] at h
    have hl := diffList_length (sortAngles l)
    rw [h, sortAngles_length] at hl
    simp only [List.length_nil] at hl
    simp
    omega
  · have hne : diffList (sortAngles l) ≠ [] := by
      intro he
      rw [(npMin_eq_none_iff (diffList (sortAngles l))).mpr he] at h
      exact Option.noConfusion h
    have hpos := List.length_pos.mpr hne
    have hl := diffList_length (sortAngles l)
    rw [sortAngles_length] at hl
    simp only [reduceCtorEq, false_iff, not_lt]
    omega

/-- Claim C4 counterexample: the template angles 0 and 0.1 have minimal
adjacent spacing 0.1, a non-degenerate (positive) spacing between
distinct angles, yet the computed tolerance min(0.1/2 - 0.1, 3) = -0.05
is negative, refuting the claimed nonnegativity. -/
theorem gantry_tol_negative_for_small_spacing :
    gantry_tol_from_gantry_angles [0, 1/10] = some (-(1/20)) ∧
      (-(1/20) : ℚ) < 0 := by
  constructor
  · norm_num [gantry_tol_from_gantry_angles, sortAngles, insertSorted,
      diffList, npMin, min_def]
  · norm_num

/-- Claim C4 (amended): for every template angle list whose sorted
adjacent differences have minimum d, gantry_tol_from_gantry_angles
returns exactly min(d/2 - 0.1, 3.0); the returned tolerance is
nonnegative whenever d is at least 0.2 degrees (for positive spacings
below 0.2 it is negative). -/
theorem gantry_tol_formula_and_nonneg (l : List ℚ) (d : ℚ)
    (h : npMin (diffList (sortAngles l)) = some d) :
    gantry_tol_from_gantry_angles l = some (min (d / 2 - 1/10) 3) ∧
      (1/5 ≤ d → 0 ≤ min (d / 2 - 1/10) 3) := by
  constructor
  · unfold gantry_tol_from_gantry_angles
    rw [h]
  · intro hd
    apply le_min
    · linarith
    · norm_num

/-- Witness for claim C4's amended theorem at the template angles 0 and
90: the minimal spacing is 90 and the returned tolerance min(44.9, 3)
is nonnegative. -/
theorem gantry_tol_formula_and_nonneg_witness :
    gantry_tol_from_gantry_angles [0, 90] =
        some (min ((90 : ℚ) / 2 - 1/10) 3) ∧
      0 ≤ min ((90 : ℚ) / 2 - 1/10) 3 := by
  have h : npMin (diffList (sortAngles [(0 : ℚ), 90])) = some 90 := by
    norm_num [sortAngles, insertSorted, diffList, npMin]
  exact ⟨(gantry_tol_formula_and_nonneg [0, 90] 90 h).1,
    (gantry_tol_formula_and_nonneg [0, 90] 90 h).2 (by norm_num)⟩

/-- Claim C6 counterexample: applying the jaw conversion twice to the
jaw pair (1, 2) yields (-1, -2), not the original pair, because one
application maps (a, b) to (-b, a), a quarter-turn of order four. -/
theorem jaw_dd2dcm_twice_not_identity :
    jaw_dd2dcm (jaw_dd2dcm [(1, 2)]) = [(-1, -2)] ∧
      jaw_dd2dcm (jaw_dd2dcm [(1, 2)]) ≠ [((1 : ℚ), (2 : ℚ))] := by
  constructor <;> norm_num [jaw_dd2dcm]

/-- Claim C6 (amended): applying the jaw conversion twice returns every
pair with both signs flipped and the original order restored, and
applying it four times returns the original values exactly. -/
theorem jaw_dd2dcm_double_negates (l : List (ℚ × ℚ)) :
    jaw_dd2dcm (jaw_dd2dcm l) = l.map (fun p => (-p.1, -p.2)) ∧
      jaw_dd2dcm (jaw_dd2dcm (jaw_dd2dcm (jaw_dd2dcm l))) = l := by
  have h2 : ∀ m : List (ℚ × ℚ),
      jaw_dd2dcm (jaw_dd2dcm m) = m.map (fun p => (-p.1, -p.2)) := by
    intro m
    simp [jaw_dd2dcm, List.map_map, Function.comp_def]
  refine ⟨h2 l, ?_⟩
  rw [h2 (jaw_dd2dcm (jaw_dd2dcm l)), h2 l, List.map_map]
  simp [Function.comp_def]

/-- Claim C8: mlc_dd2dcm sends every per-sample leaf-by-bank matrix to
the concatenation of bank B reversed and negated with bank A reversed:
leaf order is reversed along the leaf axis, the two banks swap roles,
and the bank placed first carries the sign flip. -/
theorem mlc_dd2dcm_bank_reflection (mlc : List (List (ℚ × ℚ))) :
    mlc_dd2dcm mlc = mlc.map (fun control_point =>
      (control_point.map (fun p => p.2)).reverse.map (fun x => -x) ++
        (control_point.map (fun p => p.1)).reverse) := by
  simp [mlc_dd2dcm, List.map_reverse, List.map_map, Function.comp_def]

/-- Claim C9: on the source domain [-180, 180) the normalization of
angle_dd2dcm fixes nonnegative angles, adds 360 to negative ones, and
is idempotent. -/
theorem normalize_angle_spec_and_idempotent (a : ℚ) (h1 : -180 ≤ a)
    (h2 : a < 180) :
    (0 ≤ a → normalize_angle a = a) ∧
      (a < 0 → normalize_angle a = a + 360) ∧
      normalize_angle (normalize_angle a) = normalize_angle a := by
  unfold normalize_angle
  refine ⟨fun h0 => ?_, fun h0 => ?_, ?_⟩ <;>
    split_ifs <;> first | rfl | linarith

/-- Witness for claim C9 at the angle -90. -/
theorem normalize_angle_spec_and_idempotent_witness :
    normalize_angle (-90) = -90 + 360 ∧
      normalize_angle (normalize_angle (-90)) = normalize_angle (-90) := by
  have h := normalize_angle_spec_and_idempotent (-90) (by norm_num)
    (by norm_num)
  exact ⟨h.2.1 (by norm_num), h.2.2⟩

/-- Claim C7: angle_dd2dcm is not side-effect free.  When the caller's
angle sequence is a shared float array (np.array with copy equal to
False aliases it), the in-place masked normalization overwrites the
caller's buffer: the input [-90] reads back as [270] after the call,
while jaw_dd2dcm copies before mutating (copy equal to True). -/
theorem angle_dd2dcm_mutates_caller_buffer :
    angle_dd2dcm_caller_buffer [-90] true = [270] ∧
      angle_dd2dcm_caller_buffer [-90] true ≠ [-90] := by
  constructor <;> norm_num [angle_dd2dcm_caller_buffer, normalize_angle]

theorem diffList_get? :
    ∀ (l : List ℚ) (i : ℕ) (a b : ℚ), l.get? i = some a →
      l.get? (i + 1) = some b → (diffList l).get? i = some (b - a)
  | [], i, a, b => by simp
  | [x], i, a, b => by
    intro _ h2
    rw [List.get?_cons_succ] at h2
    simp at h2
  | x :: y :: rest, 0, a, b => by
    intro h1 h2
    rw [List.get?_cons_zero] at h1
    rw [List.get?_cons_succ, List.get?_cons_zero] at h2
    injection h1 with h1
    injection h2 with h2
    subst h1
    subst h2
    rfl
  | x :: y :: rest, i + 1, a, b => by
    intro h1 h2
    rw [List.get?_cons_succ] at h1 h2
    simp only [diffList, List.get?_cons_succ]
    exact diffList_get? (y :: rest) i a b h1 h2

theorem directionTags_get? (l : List ℚ) (i : ℕ) (a b : ℚ)
    (h1 : l.get? i = some a) (h2 : l.get? (i + 1) = some b) :
    (directionTags l).get? i = some (movement_of_diff (b - a)) := by
  have hd := diffList_get? l i a b h1 h2
  have hlt : i < (diffList l).length := by
    rcases List.get?_eq_some.mp hd with ⟨hl, _⟩
    exact hl
  unfold directionTags
  rw [List.get?_map, List.get?_append hlt, hd]
  rfl

theorem directionTags_getLast? (l : List ℚ) :
    (directionTags l).getLast? = some Movement.NONE := by
  unfold directionTags
  rw [List.map_append]
  simp only [List.map_cons, List.map_nil]
  rw [List.getLast?_concat]
  simp [movement_of_diff]

theorem directionTags_length (l : List ℚ) (h : l ≠ []) :
    (directionTags l).length = l.length := by
  have hpos := List.length_pos.mpr h
  unfold directionTags
  simp [diffList_length]
  omega

/-- Claim C5: angle_dd2dcm pairs the normalized angles with direction
tags computed from the raw pre-normalization forward differences: the
tag at index i is CW when the successor is larger, CC when smaller,
NONE when equal; the final sample's tag is always NONE; and the tag
list covers every sample. -/
theorem angle_dd2dcm_direction_tags (l : List ℚ) (h : l ≠ []) :
    angle_dd2dcm l = some (l.map normalize_angle, directionTags l) ∧
      (∀ (i : ℕ) (a b : ℚ), l.get? i = some a → l.get? (i + 1) = some b →
        (directionTags l).get? i = some
          (if a < b then Movement.CW else
            if b < a then Movement.CC else Movement.NONE)) ∧
      (directionTags l).getLast? = some Movement.NONE ∧
      (directionTags l).length = l.length := by
  refine ⟨?_, ?_, directionTags_getLast? l, directionTags_length l h⟩
  · cases l with
    | nil => exact absurd rfl h
    | cons x xs => rfl
  · intro i a b h1 h2
    rw [directionTags_get? l i a b h1 h2]
    congr 1
    unfold movement_of_diff
    split_ifs <;> first | rfl | linarith

/-- Witness for claim C5 at the angle trajectory [-90, 0, 0, -10]:
the tags are CW, NONE, CC, NONE, the output angles are the normalized
[270, 0, 0, 350], and the last tag is NONE. -/
theorem angle_dd2dcm_direction_tags_witness :
    angle_dd2dcm [-90, 0, 0, -10] =
        some (([(-90 : ℚ), 0, 0, -10]).map normalize_angle,
          directionTags [(-90 : ℚ), 0, 0, -10]) ∧
      (directionTags [(-90 : ℚ), 0, 0, -10]).getLast? = some Movement.NONE ∧
      angle_dd2dcm [-90, 0, 0, -10] = some ([270, 0, 0, 350],
        [Movement.CW, Movement.NONE, Movement.CC, Movement.NONE]) := by
  have h := angle_dd2dcm_direction_tags [-90, 0, 0, -10] (by simp)
  refine ⟨h.1, h.2.2.1, ?_⟩
  norm_num [angle_dd2dcm, directionTags, diffList, movement_of_diff,
    normalize_angle]

theorem candidate_delivered_error_eq (dd : DeliveryDataBase)
    (gantry_tol : Option ℚ) (fg : FractionGroup) (e : FGError)
    (h : candidate_delivered dd gantry_tol fg = Except.error e) :
    e = FGError.emptySequence := by
  unfold candidate_delivered at h
  split at h
  · injection h with h
    exact h.symm
  · split at h
    · exact Except.noConfusion h
    · exact Except.noConfusion h

theorem within_tol_error_eq (dicom_metersets : List ℚ)
    (delivered : Option (List ℚ)) (meterset_tol : ℚ) (e : FGError)
    (h : within_tol dicom_metersets delivered meterset_tol = Except.error e) :
    e = FGError.emptySequence := by
  unfold within_tol at h
  split at h
  · exact Except.noConfusion h
  · split at h
    · split at h
      · injection h with h
        exact h.symm
      · exact Except.noConfusion h
    · injection h with h
      exact h.symm

theorem mapExcept_error_eq {α β : Type} (f : α → Except FGError β)
    (hf : ∀ x e, f x = Except.error e → e = FGError.emptySequence) :
    ∀ (l : List α) (e : FGError), mapExcept f l = Except.error e →
      e = FGError.emptySequence
  | [], e => by
    intro h
    exact Except.noConfusion h
  | a :: as, e => by
    intro h
    unfold mapExcept at h
    cases hfa : f a with
    | error e1 =>
      simp only [hfa] at h
      injection h with h
      exact h.symm.trans (hf a e1 hfa)
    | ok b =>
      simp only [hfa] at h
      cases hrest : mapExcept f as with
      | error e2 =>
        simp only [hrest] at h
        injection h with h
        exact h.symm.trans (mapExcept_error_eq f hf as e2 hrest)
      | ok bs =>
        simp only [hrest] at h
        exact Except.noConfusion h

theorem mapExcept_flag_error (dd : DeliveryDataBase) (gantry_tol : Option ℚ)
    (meterset_tol : ℚ) :
    ∀ (fgs : List FractionGroup) (e : FGError),
      mapExcept (candidate_delivered dd gantry_tol) fgs = Except.error e →
      mapExcept (candidate_flag dd gantry_tol meterset_tol) fgs =
        Except.error FGError.emptySequence
  | [], e => by
    intro h
    exact Except.noConfusion h
  | fg :: rest, e => by
    intro h
    unfold mapExcept at h ⊢
    cases hfa : candidate_delivered dd gantry_tol fg with
    | error e1 =>
      have he1 := candidate_delivered_error_eq dd gantry_tol fg e1 hfa
      have hcf : candidate_flag dd gantry_tol meterset_tol fg =
          Except.error e1 := by
        unfold candidate_flag
        rw [hfa]
      simp only [hcf, he1]
    | ok d =>
      simp only [hfa] at h
      cases hrest : mapExcept (candidate_delivered dd gantry_tol) rest with
      | error e2 =>
        have hr := mapExcept_flag_error dd gantry_tol meterset_tol rest e2 hrest
        cases hw : within_tol (get_fraction_group_beam_sequence_and_meterset fg)
            d meterset_tol with
        | error e3 =>
          have he3 := within_tol_error_eq _ d meterset_tol e3 hw
          have hcf : candidate_flag dd gantry_tol meterset_tol fg =
              Except.error e3 := by
            unfold candidate_flag
            rw [hfa]
            exact hw
          simp only [hcf, he3]
        | ok b =>
          have hcf : candidate_flag dd gantry_tol meterset_tol fg =
              Except.ok b := by
            unfold candidate_flag
            rw [hfa]
            exact hw
          simp only [hcf, hr]
      | ok ds =>
        simp only [hrest] at h
        exact Except.noConfusion h

theorem flags_fused (dd : DeliveryDataBase) (gantry_tol : Option ℚ)
    (meterset_tol : ℚ) :
    ∀ fgs : List FractionGroup,
      (match mapExcept (candidate_delivered dd gantry_tol) fgs with
       | Except.error e => Except.error e
       | Except.ok ds =>
         mapExcept (fun p => within_tol p.1 p.2 meterset_tol)
           ((fgs.map (fun fg => get_fraction_group_beam_sequence_and_meterset fg)).zip
             ds))
      = mapExcept (candidate_flag dd gantry_tol meterset_tol) fgs
  | [] => rfl
  | fg :: rest => by
    cases hfa : candidate_delivered dd gantry_tol fg with
    | error e1 =>
      have hcf : candidate_flag dd gantry_tol meterset_tol fg =
          Except.error e1 := by
        unfold candidate_flag
        rw [hfa]
      simp only [mapExcept, hfa, hcf]
    | ok d =>
      cases hrest : mapExcept (candidate_delivered dd gantry_tol) rest with
      | error e2 =>
        have he2 := mapExcept_error_eq (candidate_delivered dd gantry_tol)
          (candidate_delivered_error_eq dd gantry_tol) rest e2 hrest
        cases hw : within_tol (get_fraction_group_beam_sequence_and_meterset fg)
            d meterset_tol with
        | error e3 =>
          have he3 := within_tol_error_eq _ d meterset_tol e3 hw
          have hcf : candidate_flag dd gantry_tol meterset_tol fg =
              Except.error e3 := by
            unfold candidate_flag
            rw [hfa]
            exact hw
          simp only [mapExcept, hfa, hrest, List.map_cons, List.zip_cons_cons,
            hw, hcf, he2, he3]
        | ok b =>
          have hcf : candidate_flag dd gantry_tol meterset_tol fg =
              Except.ok b := by
            unfold candidate_flag
            rw [hfa]
            exact hw
          have hr := mapExcept_flag_error dd gantry_tol meterset_tol rest e2
            hrest
          simp only [mapExcept, hfa, hrest, List.map_cons, List.zip_cons_cons,
            hw, hcf, hr, he2]
      | ok ds =>
        have ihr := flags_fused dd gantry_tol meterset_tol rest
        simp only [hrest] at ihr
        cases hw : within_tol (get_fraction_group_beam_sequence_and_meterset fg)
            d meterset_tol with
        | error e3 =>
          have hcf : candidate_flag dd gantry_tol meterset_tol fg =
              Except.error e3 := by
            unfold candidate_flag
            rw [hfa]
            exact hw
          simp only [mapExcept, hfa, hrest, List.map_cons, List.zip_cons_cons,
            hw, hcf]
        | ok b =>
          have hcf : candidate_flag dd gantry_tol meterset_tol fg =
              Except.ok b := by
            unfold candidate_flag
            rw [hfa]
            exact hw
          simp only [mapExcept, hfa, hrest, List.map_cons, List.zip_cons_cons,
            hw, hcf]
          simp only [List.zip] at ihr ⊢
          rw [ihr]

theorem resolve_multi_fused (dd : DeliveryDataBase) (gantry_tol : Option ℚ)
    (meterset_tol : ℚ) (fgs : List FractionGroup) :
    resolve_multi dd fgs gantry_tol meterset_tol =
      (match mapExcept (candidate_flag dd gantry_tol meterset_tol) fgs with
       | Except.error e => Except.error e
       | Except.ok flags => aggregate (fgs.map (fun g => g.number)) flags) := by
  unfold resolve_multi
  rw [← flags_fused dd gantry_tol meterset_tol fgs]
  cases h1 : mapExcept (candidate_delivered dd gantry_tol) fgs with
  | error e => simp only [h1]
  | ok ds => simp only [h1]

theorem determine_eq_resolve_multi (dd : DeliveryDataBase)
    (t : DicomTemplate) (gantry_tol : Option ℚ) (meterset_tol : ℚ)
    (h : 2 ≤ t.fraction_groups.length) :
    determine_fraction_group_number dd t gantry_tol meterset_tol =
      resolve_multi dd t.fraction_groups gantry_tol meterset_tol := by
  unfold determine_fraction_group_number
  rcases ht : t.fraction_groups with _ | ⟨fg, rest⟩
  · rfl
  · cases rest with
    | nil =>
      rw [ht] at h
      simp at h
    | cons fg2 rest2 =>
      rfl

/-- Claim C3: during multi-group resolution, a candidate fraction group
whose gantry masking fails does not abort the resolution: its delivered
metersets are treated as entirely absent and the candidate evaluates to
a non-match (flag false), while the overall result is still the
aggregation of every candidate's flag, so the remaining candidates are
considered. -/
theorem determine_fraction_group_swallows_masking_failure
    (dd : DeliveryDataBase) (t : DicomTemplate) (gantry_tol : Option ℚ)
    (meterset_tol tol : ℚ) (fg : FractionGroup)
    (hlen : 2 ≤ t.fraction_groups.length)
    (hmem : fg ∈ t.fraction_groups)
    (htol : resolve_gantry_tol gantry_tol fg = some tol)
    (hmask : get_all_masked_delivery_data dd (get_gantry_angles_from_dicom fg)
      tol = Except.error ()) :
    candidate_flag dd gantry_tol meterset_tol fg = Except.ok false ∧
      determine_fraction_group_number dd t gantry_tol meterset_tol =
        (match mapExcept (candidate_flag dd gantry_tol meterset_tol)
            t.fraction_groups with
         | Except.error e => Except.error e
         | Except.ok flags =>
           aggregate (t.fraction_groups.map (fun g => g.number)) flags) := by
  constructor
  · unfold candidate_flag candidate_delivered
    simp only [htol, hmask]
    rfl
  · rw [determine_eq_resolve_multi dd t gantry_tol meterset_tol hlen,
      resolve_multi_fused]

/-- Witness for claim C3: in the two-group template, group 2's beams sit
at gantry 110 and -110 so its masking of exDelivery fails, the candidate
evaluates to a non-match, and resolution still aggregates both
candidates (and in fact accepts group 1). -/
theorem determine_fraction_group_swallows_masking_failure_witness :
    candidate_flag exDelivery none (1/2) exGroupTwo = Except.ok false ∧
      determine_fraction_group_number exDelivery exTemplate none (1/2) =
        (match mapExcept (candidate_flag exDelivery none (1/2))
            exTemplate.fraction_groups with
         | Except.error e => Except.error e
         | Except.ok flags =>
           aggregate (exTemplate.fraction_groups.map (fun g => g.number))
             flags) :=
  determine_fraction_group_swallows_masking_failure exDelivery exTemplate
    none (1/2) 3 exGroupTwo
    (by norm_num [exTemplate])
    (by simp [exTemplate, exGroupTwo])
    (by norm_num [resolve_gantry_tol, exGroupTwo,
      gantry_tol_from_gantry_angles, get_gantry_angles_from_dicom,
      sortAngles, insertSorted, diffList, npMin, min_def])
    (by norm_num [get_all_masked_delivery_data, get_gantry_angles_from_dicom,
      exGroupTwo, exDelivery, maskByAngle, maskChannel, ratAbs,
      List.filter, List.zip, List.zipWith, List.any])

/-- Claim C2: on the two-group template where exactly one candidate
(group 1, maximum deviation 0 within the 0.5 tolerance) is accepted,
determine_fraction_group_number returns the boolean-mask-filtered
one-element array containing 1, not the scalar FractionGroupNumber 1
that the specification requires. -/
theorem determine_fraction_group_returns_array_not_scalar :
    determine_fraction_group_number exDelivery exTemplate none (1/2) =
        Except.ok (FGResult.array [1]) ∧
      FGResult.array [1] ≠ FGResult.scalar 1 := by
  constructor
  · norm_num [determine_fraction_group_number, exTemplate, exDelivery,
      exGroupTwo, resolve_multi, mapExcept, candidate_delivered,
      resolve_gantry_tol, gantry_tol_from_gantry_angles,
      get_gantry_angles_from_dicom,
      get_fraction_group_beam_sequence_and_meterset,
      sortAngles, insertSorted, diffList, npMin, npMax, min_def, max_def,
      get_all_masked_delivery_data, maskByAngle, maskChannel, ratAbs,
      get_metersets_from_delivery_data, within_tol, aggregate,
      List.filter, List.zip, List.zipWith, List.any, List.filterMap,
      List.count]
  · intro h
    exact FGResult.noConfusion h

/-- Claim C1: delivery_data_to_dicom called without an explicit fraction
group number performs no resolution (the line
if fraction_group_number is None: pass does nothing), so the None flows
into the fraction-group lookup and the call fails, even though
determine_fraction_group_number resolves group 1 on the same inputs and
the call with that resolved number succeeds and differs. -/
theorem to_dicom_skips_fraction_group_resolution :
    delivery_data_to_dicom exDelivery exTemplate none =
        Except.error PipelineError.unresolvedFractionGroup ∧
      determine_fraction_group_number exDelivery exTemplate none (1/2) =
        Except.ok (FGResult.array [1]) ∧
      delivery_data_to_dicom exDelivery exTemplate (some 1) ≠
        delivery_data_to_dicom exDelivery exTemplate none := by
  refine ⟨?_, ?_, ?_⟩
  · norm_num [delivery_data_to_dicom, convert_to_one_fraction_group]
  · norm_num [determine_fraction_group_number, exTemplate, exDelivery,
      exGroupTwo, resolve_multi, mapExcept, candidate_delivered,
      resolve_gantry_tol, gantry_tol_from_gantry_angles,
      get_gantry_angles_from_dicom,
      get_fraction_group_beam_sequence_and_meterset,
      sortAngles, insertSorted, diffList, npMin, npMax, min_def, max_def,
      get_all_masked_delivery_data, maskByAngle, maskChannel, ratAbs,
      get_metersets_from_delivery_data, within_tol, aggregate,
      List.filter, List.zip, List.zipWith, List.any, List.filterMap,
      List.count]
  · norm_num [delivery_data_to_dicom, convert_to_one_fraction_group,
      exTemplate, exDelivery, exGroupTwo, List.find?,
      filter_out_irrelevant_control_points,
      gantry_tol_from_gantry_angles, get_gantry_angles_from_dicom,
      sortAngles, insertSorted, diffList, npMin, min_def,
      get_all_masked_delivery_data, maskByAngle, maskChannel, ratAbs,
      build_beams, coordinate_convert_delivery_data, angle_dd2dcm,
      directionTags, movement_of_diff, normalize_angle, mlc_dd2dcm,
      jaw_dd2dcm, List.filter, List.zip, List.zipWith, List.any]
    intro h
    exact Except.noConfusion h
